import Mathlib

/-!
Verification of the API client façade of the AgenticAnalyticsPlatform
dashboard.

The development shallowly embeds the TypeScript `ApiService` class
(`src/services/api.ts`) and the data-source form handler of
`src/frontend/src/pages/Settings.tsx`.

Modelling conventions:
* the axios instance created in the constructor is the pair of a
  `ClientConfig` (base URL, `timeout: 10000`, JSON content type) and the
  two interceptors, `requestInterceptor` and `responseInterceptorError`;
* the façade's mutable state (`this.token`, the `auth_token` key of
  `localStorage`, and `window.location.href` assignments) is the record
  `ApiState`; `localStorage.getItem` returning `null` is `Option.none`;
* JavaScript truthiness of `this.token` (`if (this.token)`) is `jsTruthy`:
  both `null` and the empty string are falsy;
* each façade method's axios call is tabulated by `ApiOp.call`, one arm
  per method, recording the HTTP verb, path, query params and body exactly
  as the corresponding call site writes them; opaque `any` payloads are
  carried as their serialized `String` form;
* a fallible HTTP exchange is an `Except ApiError` value handed to the
  pure continuation of the corresponding method.
-/

namespace ApiClient

/-- HTTP verbs used by the façade. -/
inductive Method where
  | get
  | post
  | put
  | delete
  deriving DecidableEq, Repr

/-- An outgoing HTTP request as assembled by the axios instance: instance
defaults (`baseURL`, `timeout`, headers) merged with the per-call verb,
path, query params and body. -/
structure Request where
  method : Method
  baseURL : String
  url : String
  params : List (String × String)
  body : Option String
  headers : List (String × String)
  timeout : Nat
  deriving DecidableEq, Repr

/-- Configuration passed to `axios.create` in the `ApiService` constructor:
`baseURL: API_BASE_URL, timeout: 10000, headers: Content-Type json`. -/
structure ClientConfig where
  baseURL : String
  timeout : Nat
  contentType : String
  deriving DecidableEq, Repr

/-- The `axios.create` argument of the constructor, parameterised by the
deployment-dependent `API_BASE_URL`. -/
def mkClientConfig (apiBaseURL : String) : ClientConfig :=
  { baseURL := apiBaseURL, timeout := 10000, contentType := "application/json" }

/-- Serialization of one optional query parameter: axios omits `undefined`
fields of a `params` object. -/
def optParam (key : String) : Option String → List (String × String)
  | some v => [(key, v)]
  | none => []

/-- Serialization of one optional numeric query parameter. -/
def optNatParam (key : String) : Option Nat → List (String × String)
  | some n => [(key, toString n)]
  | none => []

/-- Optional filter object of `getMetrics`. -/
structure MetricsFilter where
  start_time : Option String := none
  end_time : Option String := none
  metric_type : Option String := none
  deriving DecidableEq, Repr

def MetricsFilter.toParams (f : MetricsFilter) : List (String × String) :=
  optParam "start_time" f.start_time ++ optParam "end_time" f.end_time ++
    optParam "metric_type" f.metric_type

/-- Optional filter object of `getAnomalies`. -/
structure AnomaliesFilter where
  start_time : Option String := none
  end_time : Option String := none
  severity : Option String := none
  deriving DecidableEq, Repr

def AnomaliesFilter.toParams (f : AnomaliesFilter) : List (String × String) :=
  optParam "start_time" f.start_time ++ optParam "end_time" f.end_time ++
    optParam "severity" f.severity

/-- Optional filter object of `getLogEntries`. -/
structure LogsFilter where
  start_time : Option String := none
  end_time : Option String := none
  level : Option String := none
  source : Option String := none
  limit : Option Nat := none
  deriving DecidableEq, Repr

def LogsFilter.toParams (f : LogsFilter) : List (String × String) :=
  optParam "start_time" f.start_time ++ optParam "end_time" f.end_time ++
    optParam "level" f.level ++ optParam "source" f.source ++
    optNatParam "limit" f.limit

/-- Optional filter object of `getCICDPipelines`. -/
structure CICDFilter where
  start_time : Option String := none
  end_time : Option String := none
  status : Option String := none
  limit : Option Nat := none
  deriving DecidableEq, Repr

def CICDFilter.toParams (f : CICDFilter) : List (String × String) :=
  optParam "start_time" f.start_time ++ optParam "end_time" f.end_time ++
    optParam "status" f.status ++ optNatParam "limit" f.limit

/-- Optional filter object of `getTestResults`. -/
structure TestsFilter where
  start_time : Option String := none
  end_time : Option String := none
  status : Option String := none
  test_suite : Option String := none
  limit : Option Nat := none
  deriving DecidableEq, Repr

def TestsFilter.toParams (f : TestsFilter) : List (String × String) :=
  optParam "start_time" f.start_time ++ optParam "end_time" f.end_time ++
    optParam "status" f.status ++ optParam "test_suite" f.test_suite ++
    optNatParam "limit" f.limit

/-- Optional filter object of `getReports`. -/
structure ReportsFilter where
  start_time : Option String := none
  end_time : Option String := none
  report_type : Option String := none
  limit : Option Nat := none
  deriving DecidableEq, Repr

def ReportsFilter.toParams (f : ReportsFilter) : List (String × String) :=
  optParam "start_time" f.start_time ++ optParam "end_time" f.end_time ++
    optParam "report_type" f.report_type ++ optNatParam "limit" f.limit

/-- Serialization of an optional filter argument (`params?:` in the
TypeScript signatures): an absent object contributes no query params. -/
def filterParams {α : Type} (toParams : α → List (String × String)) :
    Option α → List (String × String)
  | some f => toParams f
  | none => []

/-- The façade's operations, one constructor per public method of
`ApiService`, carrying the arguments the method forwards into its axios
call. Opaque `any`/typed JSON payloads are carried serialized. -/
inductive ApiOp where
  | login
  | healthCheck
  | getMetrics (filters : Option MetricsFilter)
  | ingestMetrics (metricData : String)
  | getTimeSeriesData (metricName timeRange aggregation : String)
  | getAnomalies (filters : Option AnomaliesFilter)
  | detectAnomalies (metricData : String)
  | resolveAnomaly (anomalyId : Int)
  | getDataSources
  | createDataSource (dataSource : String)
  | updateDataSource (id : Int) (dataSource : String)
  | deleteDataSource (id : Int)
  | getLogEntries (filters : Option LogsFilter)
  | ingestLogEntries (logData : String)
  | getCICDPipelines (filters : Option CICDFilter)
  | ingestCICDPipeline (pipelineData : String)
  | getTestResults (filters : Option TestsFilter)
  | ingestTestResults (testData : String)
  | getAnalyticsSummary (timeRange : String)
  | executeQuery (query : String)
  | getReports (filters : Option ReportsFilter)
  | generateReport (reportData : String)
  | processConversationalQuery (query : String)
  deriving DecidableEq, Repr

/-- The verb/path/params/body quadruple a façade method passes to the
shared axios client. -/
structure CallSpec where
  method : Method
  url : String
  params : List (String × String)
  body : Option String
  deriving DecidableEq, Repr

/-- Tabulation of every `this.client.<verb>(...)` call site of
`ApiService`, one arm per method, copied from the source. -/
def ApiOp.call : ApiOp → CallSpec
  | .login => ⟨.post, "/auth/login", [], none⟩
  | .healthCheck => ⟨.get, "/health", [], none⟩
  | .getMetrics f => ⟨.get, "/metrics", filterParams MetricsFilter.toParams f, none⟩
  | .ingestMetrics d => ⟨.post, "/metrics/ingest", [], some d⟩
  | .getTimeSeriesData m tr agg =>
      ⟨.get, "/metrics/timeseries",
        [("metric_name", m), ("time_range", tr), ("aggregation", agg)], none⟩
  | .getAnomalies f => ⟨.get, "/anomalies", filterParams AnomaliesFilter.toParams f, none⟩
  | .detectAnomalies d => ⟨.post, "/anomalies/detect", [], some d⟩
  | .resolveAnomaly i => ⟨.post, "/anomalies/" ++ toString i ++ "/resolve", [], none⟩
  | .getDataSources => ⟨.get, "/data-sources", [], none⟩
  | .createDataSource d => ⟨.post, "/data-sources", [], some d⟩
  | .updateDataSource i d => ⟨.put, "/data-sources/" ++ toString i, [], some d⟩
  | .deleteDataSource i => ⟨.delete, "/data-sources/" ++ toString i, [], none⟩
  | .getLogEntries f => ⟨.get, "/logs", filterParams LogsFilter.toParams f, none⟩
  | .ingestLogEntries d => ⟨.post, "/logs/ingest", [], some d⟩
  | .getCICDPipelines f => ⟨.get, "/cicd/pipelines", filterParams CICDFilter.toParams f, none⟩
  | .ingestCICDPipeline d => ⟨.post, "/cicd/pipelines", [], some d⟩
  | .getTestResults f => ⟨.get, "/tests/results", filterParams TestsFilter.toParams f, none⟩
  | .ingestTestResults d => ⟨.post, "/tests/ingest", [], some d⟩
  | .getAnalyticsSummary tr => ⟨.get, "/analytics/summary", [("time_range", tr)], none⟩
  | .executeQuery q => ⟨.post, "/analytics/query", [], some q⟩
  | .getReports f => ⟨.get, "/reports", filterParams ReportsFilter.toParams f, none⟩
  | .generateReport d => ⟨.post, "/reports/generate", [], some d⟩
  | .processConversationalQuery q => ⟨.post, "/ai-agents/conversational-query", [], some q⟩

/-- The façade's mutable state: `this.token`, the `auth_token` entry of
`localStorage` (`none` when the key is absent), and the last forced
navigation target (`none` when no redirect has been forced). -/
structure ApiState where
  token : Option String
  storage : Option String
  location : Option String
  deriving DecidableEq, Repr

/-- JavaScript truthiness of the nullable token string: `null` and the
empty string are falsy, every other string is truthy. -/
def jsTruthy : Option String → Bool
  | none => false
  | some t => t != ""

/-- The request interceptor installed in the constructor: when
`this.token` is truthy it sets `config.headers.Authorization` to
`Bearer <token>`; otherwise the config passes through unchanged. -/
def requestInterceptor (token : Option String) (config : Request) : Request :=
  if jsTruthy token then
    { config with headers := config.headers ++ [("Authorization", "Bearer " ++ token.getD "")] }
  else
    config

/-- An axios error as seen by the response interceptor: `status` is
`error.response?.status` (`none` when no response arrived, e.g. a
network or timeout failure), `message` stands for the rest of the error
object, which the interceptor never touches. -/
structure ApiError where
  status : Option Nat
  message : String
  deriving DecidableEq, Repr

/-- The error branch of the response interceptor installed in the
constructor: on status 401 it nulls the token, removes the persisted
`auth_token` key and forces `window.location.href = '/login'`; in every
case it re-rejects with the original error. -/
def responseInterceptorError (s : ApiState) (e : ApiError) : ApiState × ApiError :=
  if e.status = some 401 then
    ({ token := none, storage := none, location := some "/login" }, e)
  else
    (s, e)

/-- End of the `ApiService` constructor: the token is loaded from
`localStorage.getItem('auth_token')`, so memory starts equal to the
persisted value; no navigation has been forced. -/
def construct (storedToken : Option String) : ApiState :=
  { token := storedToken, storage := storedToken, location := none }

/-- `setToken`: store the token in memory and persist it under
`auth_token`. -/
def setToken (s : ApiState) (t : String) : ApiState :=
  { s with token := some t, storage := some t }

/-- `clearToken`: null the in-memory token and remove the persisted
key. -/
def clearToken (s : ApiState) : ApiState :=
  { s with token := none, storage := none }

/-- The request the façade actually puts on the wire for an operation:
the per-call spec merged with the instance defaults, then passed through
the request interceptor. -/
def sendRequest (s : ApiState) (cfg : ClientConfig) (op : ApiOp) : Request :=
  requestInterceptor s.token
    { method := op.call.method
      baseURL := cfg.baseURL
      url := op.call.url
      params := op.call.params
      body := op.call.body
      headers := [("Content-Type", cfg.contentType)]
      timeout := cfg.timeout }

/-- The per-call request before interception (instance defaults only):
used to state that no call site supplies its own Authorization header,
timeout or content type. -/
def baseRequest (cfg : ClientConfig) (op : ApiOp) : Request :=
  { method := op.call.method
    baseURL := cfg.baseURL
    url := op.call.url
    params := op.call.params
    body := op.call.body
    headers := [("Content-Type", cfg.contentType)]
    timeout := cfg.timeout }

/-- Value of a named header on a request. -/
def headerValue (key : String) (r : Request) : Option String :=
  (r.headers.find? (fun h => h.1 == key)).map (fun h => h.2)

/-- The Authorization header of a request, if present. -/
def authHeaderOf (r : Request) : Option String :=
  headerValue "Authorization" r

/-- The Content-Type header of a request, if present. -/
def contentTypeOf (r : Request) : Option String :=
  headerValue "Content-Type" r

/-- Shape of the `/auth/login` response body (`AuthResponse` in
`src/frontend/src/types/index.ts`). -/
structure AuthResponse where
  access_token : String
  token_type : String
  deriving DecidableEq, Repr

/-- The success continuation of `login()`: `this.setToken(
response.data.access_token); return response.data;`. -/
def loginSuccess (s : ApiState) (respData : AuthResponse) : ApiState × AuthResponse :=
  (setToken s respData.access_token, respData)

/-- The continuation of `resolveAnomaly`: a fulfilled exchange yields
`true`; a rejected one propagates (the `await` re-throws). -/
def resolveAnomalyResult (requestOutcome : Except ApiError Unit) : Except ApiError Bool :=
  match requestOutcome with
  | .ok _ => .ok true
  | .error e => .error e

/-- One element of the `/metrics/timeseries` response body
(`TimeSeriesData` in `src/frontend/src/types/index.ts`); `value` is
nullable. -/
structure TimeSeriesData where
  timestamp : String
  value : Option Float
  deriving Repr

/-- `getTimeSeriesData`'s argument defaults: `timeRange = '24h'`,
`aggregation = 'avg'` when the caller omits them. -/
def getTimeSeriesDataOp (metricName : String) (timeRange : String := "24h")
    (aggregation : String := "avg") : ApiOp :=
  ApiOp.getTimeSeriesData metricName timeRange aggregation

/-- The body of `getTimeSeriesData` after the exchange: `return
response.data;`, with no transformation of the sequence. -/
def getTimeSeriesDataResult (respData : List TimeSeriesData) : List TimeSeriesData :=
  respData

/-- The token-affecting events of the façade's lifetime, used to state
properties of whole call sequences. -/
inductive FEvent where
  | evSetToken (t : String)
  | evClearToken
  | evErrorResponse (e : ApiError)
  | evLoginSuccess (r : AuthResponse)
  deriving DecidableEq, Repr

/-- Effect of one event on the façade state. -/
def FEvent.step (s : ApiState) : FEvent → ApiState
  | .evSetToken t => setToken s t
  | .evClearToken => clearToken s
  | .evErrorResponse e => (responseInterceptorError s e).1
  | .evLoginSuccess r => (loginSuccess s r).1

/-- Run a sequence of events from a state. -/
def run (s : ApiState) (events : List FEvent) : ApiState :=
  events.foldl FEvent.step s

/-- Whether an event can install a token (`setToken` directly, or via a
successful `login`). -/
def FEvent.setsToken : FEvent → Bool
  | .evSetToken _ => true
  | .evLoginSuccess _ => true
  | _ => false

/-- A sequence of events none of which installs a token. -/
def tokenFree (events : List FEvent) : Bool :=
  events.all (fun e => !e.setsToken)

/-- The mirror invariant of the session state: the in-memory token always
equals the persisted `auth_token` value (the façade holds the credential
in a single field, so it holds at most one token by construction). -/
def mirrors (s : ApiState) : Prop :=
  s.token = s.storage

end ApiClient

namespace SettingsPage

/-- The `formData` state of the Settings page data-source form; `config`
is the raw text of the configuration textarea. -/
structure SettingsFormData where
  name : String
  type : String
  config : String
  enabled : Bool
  deriving DecidableEq, Repr

/-- The `{ ...formData, config }` object handed to the create/update
mutation: the raw config text is replaced by the parsed value (of
environment JSON type `J`). -/
structure SubmitPayload (J : Type) where
  name : String
  type : String
  config : J
  enabled : Bool

/-- Observable outcome of one form submission: a local validation alert,
or exactly one network mutation. -/
inductive SubmitOutcome (J : Type) where
  | alertInvalidJson
  | createCall (payload : SubmitPayload J)
  | updateCall (id : Int) (payload : SubmitPayload J)

/-- `Settings.handleSubmit`: `JSON.parse` the config text (its result is
passed in as `parsedConfig`, `none` when the text is not valid JSON and
the parser throws); on failure alert and stop, on success dispatch the
update mutation when a source is being edited, else the create
mutation. -/
def handleSubmit {J : Type} (editingSource : Option Int) (formData : SettingsFormData)
    (parsedConfig : Option J) : SubmitOutcome J :=
  match parsedConfig with
  | none => SubmitOutcome.alertInvalidJson
  | some config =>
    match editingSource with
    | some id =>
        SubmitOutcome.updateCall id ⟨formData.name, formData.type, config, formData.enabled⟩
    | none =>
        SubmitOutcome.createCall ⟨formData.name, formData.type, config, formData.enabled⟩

/-- Whether a submission outcome issues a network call. -/
def SubmitOutcome.issuesNetworkCall {J : Type} : SubmitOutcome J → Bool
  | .alertInvalidJson => false
  | .createCall _ => true
  | .updateCall _ _ => true

end SettingsPage

namespace ApiClient

/-- The call sites pass only verb, path, params and body to the shared
client: the pre-interception request of every operation carries exactly
the instance-default headers. -/
theorem baseRequest_headers (cfg : ClientConfig) (op : ApiOp) :
    (baseRequest cfg op).headers = [("Content-Type", cfg.contentType)] :=
  rfl

/-- The interceptor input of `sendRequest` is `baseRequest`. -/
theorem sendRequest_eq (s : ApiState) (cfg : ClientConfig) (op : ApiOp) :
    sendRequest s cfg op = requestInterceptor s.token (baseRequest cfg op) :=
  rfl

/-- A request issued with no in-memory token carries no Authorization
header. -/
theorem authHeaderOf_sendRequest_of_token_none (s : ApiState) (cfg : ClientConfig)
    (op : ApiOp) (h : s.token = none) :
    authHeaderOf (sendRequest s cfg op) = none := by
  unfold sendRequest requestInterceptor
  rw [h]
  rfl

/-- A request issued with the empty-string token carries no Authorization
header: the truthiness guard rejects the empty string. -/
theorem authHeaderOf_sendRequest_of_token_empty (s : ApiState) (cfg : ClientConfig)
    (op : ApiOp) (h : s.token = some "") :
    authHeaderOf (sendRequest s cfg op) = none := by
  unfold sendRequest requestInterceptor
  rw [h]
  rfl

/-- C1 counterexample: after `setToken('')` a token is stored
(`token = some ""`), yet the outgoing `healthCheck` request carries no
Authorization header — refuting "the request carries the bearer header if
and only if a token is currently set". -/
theorem c1_counterexample :
    (setToken (construct none) "").token = some "" ∧
    authHeaderOf (sendRequest (setToken (construct none) "")
      (mkClientConfig "http://localhost:8000") ApiOp.healthCheck) = none :=
  ⟨rfl, rfl⟩

/-- C1 (amended): for every façade operation the pre-interception request
carries no Authorization header (callers never supply it), and the
outgoing request carries `Authorization: Bearer <token>` exactly when a
nonempty token is set; with no token, or the empty-string token, no
Authorization header is attached. -/
theorem c1_bearer_header_iff_nonempty_token (s : ApiState) (cfg : ClientConfig)
    (op : ApiOp) :
    authHeaderOf (baseRequest cfg op) = none ∧
    authHeaderOf (sendRequest s cfg op) =
      (match s.token with
       | some t => if t = "" then none else some ("Bearer " ++ t)
       | none => none) := by
  constructor
  · rfl
  · rw [sendRequest_eq]
    unfold requestInterceptor
    cases htok : s.token with
    | none => rfl
    | some t =>
        by_cases ht : t = ""
        · subst ht
          rfl
        · have htr : jsTruthy (some t) = true := by
            simp [jsTruthy, ht]
          rw [htr]
          simp only [if_pos]
          unfold authHeaderOf headerValue
          simp [baseRequest, List.find?, ht]

/-- C2: a rejected exchange with status 401 leaves the façade with a null
token, no persisted `auth_token` key, and a forced navigation to
`/login`, and re-rejects with the original error; any other rejected
exchange (other statuses, or no response at all) propagates unmodified
with no state change and no navigation. The interceptor is installed once
on the shared client, so this holds for every façade operation. -/
theorem c2_unauthorized_teardown (s : ApiState) (e : ApiError) :
    (e.status = some 401 →
      (responseInterceptorError s e).1.token = none ∧
      (responseInterceptorError s e).1.storage = none ∧
      (responseInterceptorError s e).1.location = some "/login" ∧
      (responseInterceptorError s e).2 = e) ∧
    (e.status ≠ some 401 →
      responseInterceptorError s e = (s, e)) := by
  constructor
  · intro h
    simp [responseInterceptorError, h]
  · intro h
    simp [responseInterceptorError, h]

/-- C2 witness: the 401 branch at a concrete authenticated state, and the
non-401 branch at a concrete 404 error. -/
theorem c2_unauthorized_teardown_witness :
    ((responseInterceptorError ⟨some "tok", some "tok", none⟩
        ⟨some 401, "Unauthorized"⟩).1.token = none ∧
      (responseInterceptorError ⟨some "tok", some "tok", none⟩
        ⟨some 401, "Unauthorized"⟩).1.storage = none ∧
      (responseInterceptorError ⟨some "tok", some "tok", none⟩
        ⟨some 401, "Unauthorized"⟩).1.location = some "/login" ∧
      (responseInterceptorError ⟨some "tok", some "tok", none⟩
        ⟨some 401, "Unauthorized"⟩).2 = ⟨some 401, "Unauthorized"⟩) ∧
    responseInterceptorError ⟨some "tok", some "tok", none⟩ ⟨some 404, "Not Found"⟩ =
      (⟨some "tok", some "tok", none⟩, ⟨some 404, "Not Found"⟩) :=
  ⟨(c2_unauthorized_teardown ⟨some "tok", some "tok", none⟩ ⟨some 401, "Unauthorized"⟩).1 rfl,
   (c2_unauthorized_teardown ⟨some "tok", some "tok", none⟩ ⟨some 404, "Not Found"⟩).2
     (by decide)⟩

/-- C3: the mirror invariant (in-memory token equals the persisted
`auth_token` value; the façade holds the credential in a single field, so
at most one token) is established at construction and preserved by
`setToken`, `clearToken`, a successful `login`, and the 401 interception
path. -/
theorem c3_mirror_invariant (stored : Option String) (s : ApiState) (t : String)
    (r : AuthResponse) (e : ApiError) :
    mirrors (construct stored) ∧
    mirrors (setToken s t) ∧
    mirrors (clearToken s) ∧
    mirrors (loginSuccess s r).1 ∧
    (mirrors s → mirrors (responseInterceptorError s e).1) := by
  refine ⟨rfl, rfl, rfl, rfl, fun h => ?_⟩
  unfold responseInterceptorError
  split
  · rfl
  · exact h

/-- C3 witness: the invariant at concrete inputs, including the
interceptor on a non-401 error from a mirrored state. -/
theorem c3_mirror_invariant_witness :
    mirrors (construct (some "abc")) ∧
    ((⟨some "abc", some "abc", none⟩ : ApiState).token =
        (⟨some "abc", some "abc", none⟩ : ApiState).storage) ∧
    mirrors ((responseInterceptorError ⟨some "abc", some "abc", none⟩
      ⟨some 500, "Server Error"⟩).1) :=
  ⟨(c3_mirror_invariant (some "abc") ⟨some "abc", some "abc", none⟩ "t"
      ⟨"a", "bearer"⟩ ⟨some 500, "Server Error"⟩).1,
   rfl,
   (c3_mirror_invariant (some "abc") ⟨some "abc", some "abc", none⟩ "t"
      ⟨"a", "bearer"⟩ ⟨some 500, "Server Error"⟩).2.2.2.2 rfl⟩

/-- A token-free event cannot re-install a token: from a tokenless state,
one step stays tokenless. -/
theorem step_token_none (s : ApiState) (e : FEvent) (hs : s.token = none)
    (he : e.setsToken = false) : (FEvent.step s e).token = none := by
  cases e with
  | evSetToken t => simp [FEvent.setsToken] at he
  | evClearToken => rfl
  | evErrorResponse err =>
      show ((responseInterceptorError s err).1).token = none
      unfold responseInterceptorError
      split
      · rfl
      · exact hs
  | evLoginSuccess r => simp [FEvent.setsToken] at he

/-- From a tokenless state, a token-free event sequence stays
tokenless. -/
theorem run_token_none (events : List FEvent) :
    ∀ s : ApiState, s.token = none → tokenFree events = true →
      (run s events).token = none := by
  induction events with
  | nil =>
      intro s hs _
      exact hs
  | cons e es ih =>
      intro s hs hev
      have hlist := (List.all_eq_true).1 hev
      have he : e.setsToken = false := by
        have := hlist e (List.mem_cons_self e es)
        simpa using this
      have hes : tokenFree es = true := by
        refine (List.all_eq_true).2 ?_
        intro x hx
        exact hlist x (List.mem_cons_of_mem e hx)
      exact ih (FEvent.step s e) (step_token_none s e hs he) hes

/-- C4: `clearToken` nulls the in-memory token and removes the persisted
key, and as long as no later event installs a token (`setToken` or a
successful `login`), every request subsequently issued — including after
further errors or redundant clears — carries no Authorization header. -/
theorem c4_clear_token_unauthenticated (s : ApiState) (events : List FEvent)
    (cfg : ClientConfig) (op : ApiOp) (hEvents : tokenFree events = true) :
    (clearToken s).token = none ∧
    (clearToken s).storage = none ∧
    (run (clearToken s) events).token = none ∧
    authHeaderOf (sendRequest (run (clearToken s) events) cfg op) = none := by
  have hrun : (run (clearToken s) events).token = none :=
    run_token_none events (clearToken s) rfl hEvents
  exact ⟨rfl, rfl, hrun,
    authHeaderOf_sendRequest_of_token_none _ cfg op hrun⟩

/-- C4 witness: a concrete authenticated state, cleared, followed by a
token-free trace (a 500 rejection, a redundant clear, a 401 rejection);
the subsequent `getMetrics` request carries no Authorization header. -/
theorem c4_clear_token_unauthenticated_witness :
    tokenFree [FEvent.evErrorResponse ⟨some 500, "Server Error"⟩,
      FEvent.evClearToken, FEvent.evErrorResponse ⟨some 401, "Unauthorized"⟩] = true ∧
    ((clearToken ⟨some "tok", some "tok", none⟩).token = none ∧
      (clearToken ⟨some "tok", some "tok", none⟩).storage = none ∧
      (run (clearToken ⟨some "tok", some "tok", none⟩)
        [FEvent.evErrorResponse ⟨some 500, "Server Error"⟩,
          FEvent.evClearToken,
          FEvent.evErrorResponse ⟨some 401, "Unauthorized"⟩]).token = none ∧
      authHeaderOf (sendRequest
        (run (clearToken ⟨some "tok", some "tok", none⟩)
          [FEvent.evErrorResponse ⟨some 500, "Server Error"⟩,
            FEvent.evClearToken,
            FEvent.evErrorResponse ⟨some 401, "Unauthorized"⟩])
        (mkClientConfig "http://localhost:8000") (ApiOp.getMetrics none)) = none) :=
  ⟨rfl,
   c4_clear_token_unauthenticated ⟨some "tok", some "tok", none⟩
     [FEvent.evErrorResponse ⟨some 500, "Server Error"⟩,
       FEvent.evClearToken, FEvent.evErrorResponse ⟨some 401, "Unauthorized"⟩]
     (mkClientConfig "http://localhost:8000") (ApiOp.getMetrics none) rfl⟩

/-- C5: `login()` posts to `/auth/login` with no payload, and on success
stores the returned `access_token` in memory, persists it, and returns
the `{access_token, token_type}` record unchanged to the caller. -/
theorem c5_login (s : ApiState) (respData : AuthResponse) :
    ApiOp.login.call = ⟨Method.post, "/auth/login", [], none⟩ ∧
    (loginSuccess s respData).1.token = some respData.access_token ∧
    (loginSuccess s respData).1.storage = some respData.access_token ∧
    (loginSuccess s respData).2 = respData :=
  ⟨rfl, rfl, rfl, rfl⟩

/-- C6: `resolveAnomaly(id)` posts to `/anomalies/{id}/resolve`; a
fulfilled exchange returns `true` to the caller, a rejected exchange
propagates the error as a rejection with no boolean produced. -/
theorem c6_resolve_anomaly (anomalyId : Int) (e : ApiError) :
    (ApiOp.resolveAnomaly anomalyId).call =
      ⟨Method.post, "/anomalies/" ++ toString anomalyId ++ "/resolve", [], none⟩ ∧
    resolveAnomalyResult (Except.ok ()) = Except.ok true ∧
    resolveAnomalyResult (Except.error e) = Except.error e :=
  ⟨rfl, rfl, rfl⟩

/-- C7: `getTimeSeriesData` defaults `timeRange` to `'24h'` and
`aggregation` to `'avg'`; it issues a GET to `/metrics/timeseries` with
exactly the three query parameters `metric_name`, `time_range`,
`aggregation`, with no payload, and returns the response body (a sequence
of `{timestamp, value}` pairs whose `value` may be null) without
transformation. -/
theorem c7_get_time_series_data (metricName timeRange aggregation : String)
    (respData : List TimeSeriesData) :
    getTimeSeriesDataOp metricName = ApiOp.getTimeSeriesData metricName "24h" "avg" ∧
    (ApiOp.getTimeSeriesData metricName timeRange aggregation).call =
      ⟨Method.get, "/metrics/timeseries",
        [("metric_name", metricName), ("time_range", timeRange),
          ("aggregation", aggregation)], none⟩ ∧
    getTimeSeriesDataResult respData = respData :=
  ⟨rfl, rfl, rfl⟩

/-- C9: the outgoing request of every façade operation, authenticated or
not, uses the single constructor-configured 10000 ms timeout and the JSON
content type; no call site overrides either. -/
theorem c9_uniform_timeout_content_type (s : ApiState) (apiBaseURL : String)
    (op : ApiOp) :
    (sendRequest s (mkClientConfig apiBaseURL) op).timeout = 10000 ∧
    contentTypeOf (sendRequest s (mkClientConfig apiBaseURL) op) =
      some "application/json" := by
  rw [sendRequest_eq]
  unfold requestInterceptor
  by_cases h : jsTruthy s.token
  · rw [if_pos h]
    exact ⟨rfl, rfl⟩
  · rw [if_neg h]
    exact ⟨rfl, rfl⟩

/-- C10: `setToken('')` stores the empty string in memory and persists it
under `auth_token`, yet every subsequently issued request carries no
Authorization header (the truthiness guard treats `''` like an absent
token); likewise an empty string restored from storage at construction
yields unauthenticated requests. -/
theorem c10_empty_string_token (s : ApiState) (cfg : ClientConfig) (op : ApiOp) :
    (setToken s "").token = some "" ∧
    (setToken s "").storage = some "" ∧
    authHeaderOf (sendRequest (setToken s "") cfg op) = none ∧
    (construct (some "")).token = some "" ∧
    (construct (some "")).storage = some "" ∧
    authHeaderOf (sendRequest (construct (some "")) cfg op) = none :=
  ⟨rfl, rfl,
   authHeaderOf_sendRequest_of_token_empty (setToken s "") cfg op rfl,
   rfl, rfl,
   authHeaderOf_sendRequest_of_token_empty (construct (some "")) cfg op rfl⟩

end ApiClient

namespace SettingsPage

/-- C8: when the config text does not parse as JSON (`parsedConfig =
none`, the parser threw), the submission alerts locally and issues no
network call; a create or update mutation is dispatched exactly when the
text parses, update when a source is being edited and create
otherwise. -/
theorem c8_submit_rejects_invalid_json {J : Type} (editingSource : Option Int)
    (formData : SettingsFormData) (parsedConfig : Option J) :
    (handleSubmit editingSource formData (none : Option J) =
      SubmitOutcome.alertInvalidJson) ∧
    (SubmitOutcome.alertInvalidJson : SubmitOutcome J).issuesNetworkCall = false ∧
    (handleSubmit editingSource formData parsedConfig).issuesNetworkCall =
      parsedConfig.isSome := by
  refine ⟨rfl, rfl, ?_⟩
  cases parsedConfig with
  | none => rfl
  | some j =>
      cases editingSource with
      | none => rfl
      | some id => rfl

end SettingsPage
